import Mathlib

/-!
Shallow embedding of the Watts Vision frame decoder
(src/devices/watts_vision.c, function watts_vision_decode) together with
models of the external collaborators it calls (bit-row search, bit-range
extraction, CRC-16), and theorems settling the specification claims.

Bit rows are lists of booleans (most significant bit of each byte first);
bytes are natural numbers below 256. A bitbuffer is a list of rows:
row count is the list length, bits_per_row is each row length.
-/

namespace WattsVision

/-- A byte as its eight bits, most significant first. -/
def byteToBits (b : Nat) : List Bool :=
  (List.range 8).map (fun i => b.testBit (7 - i))

/-- A byte sequence as a flat bit sequence. -/
def bytesToBits (bs : List Nat) : List Bool :=
  (bs.map byteToBits).flatten

/-- The constant array named preamble in the source: two remaining preamble
bytes 0xaa 0xaa followed by the sync word 0xd3 0x91 0xd3 0x91, 6 bytes. -/
def preambleBytes : List Nat := [0xaa, 0xaa, 0xd3, 0x91, 0xd3, 0x91]

/-- The 48-bit sync pattern searched for in the row. -/
def syncBits : List Bool := bytesToBits preambleBytes

/-- Modelled from the spec: the bit-row sub-sequence search primitive
(the source calls bitbuffer_search, whose body is outside src/); it returns
the first bit offset at which the pattern occurs as a contiguous
sub-sequence of the row, and the row bit length when no occurrence exists. -/
def bitbuffer_search (row pattern : List Bool) : Nat :=
  match (List.range (row.length + 1)).find? (fun i => pattern.isPrefixOf (row.drop i)) with
  | some i => i
  | none => row.length

/-- Modelled from the spec: the bit-range extraction primitive
(the source calls bitbuffer_extract_bytes, whose body is outside src/);
it copies n bits starting at the given offset, and bits past the end of
the row read as zero (the spec allows zero-padded trailing bytes). -/
def extractBits (row : List Bool) (pos n : Nat) : List Bool :=
  (List.range n).map (fun j => row.getD (pos + j) false)

/-- Value of a bit sequence read most significant bit first. -/
def bitsToByte (bs : List Bool) : Nat :=
  bs.foldl (fun a b => 2 * a + b.toNat) 0

/-- Byte-wise view of the extraction primitive: n bytes from the given
bit offset. -/
def extractBytes (row : List Bool) (pos n : Nat) : List Nat :=
  (List.range n).map (fun k => bitsToByte (extractBits row (pos + 8 * k) 8))

/-- Modelled from the spec: one shift step of the CRC-16 register
(no reflection), keeping the register 16 bits wide. -/
def crc16_bit (poly crc : Nat) : Nat :=
  if crc &&& 0x8000 ≠ 0 then ((crc <<< 1) ^^^ poly) &&& 0xffff
  else (crc <<< 1) &&& 0xffff

/-- Modelled from the spec: folding one message byte into the CRC-16
register: xor into the high byte, then eight shift steps. -/
def crc16_byte (poly crc b : Nat) : Nat :=
  (List.range 8).foldl (fun c _ => crc16_bit poly c) (crc ^^^ (b <<< 8))

/-- Modelled from the spec: the external CRC-16 primitive
crc16(message, nBytes, polynomial, initial) with no input or output
reflection; the caller passes the nBytes message bytes as a list. -/
def crc16 (message : List Nat) (poly init : Nat) : Nat :=
  message.foldl (crc16_byte poly) init

/-- The record emitted by data_make in the source: three string fields. -/
structure FrameRecord where
  model : String
  raw : String
  mic : String
  deriving DecidableEq

/-- Result of one decode call, keeping the rejection sites of the source
distinct: multiRow and syncNotFound are the two return DECODE_ABORT_EARLY
sites, tooShort and frameTooLarge the two return DECODE_ABORT_LENGTH
sites, crcMismatch the return DECODE_FAIL_MIC site, and success the
return 1 after decoder_output_data. -/
inductive DecodeStatus where
  | multiRow
  | syncNotFound
  | tooShort
  | frameTooLarge
  | crcMismatch
  | success (rec : FrameRecord)
  deriving DecidableEq

/-- The value a decode call actually returns to the caller. -/
inductive ReturnCode where
  | abortEarly
  | abortLength
  | failMic
  | packets (n : Nat)
  deriving DecidableEq

/-- The literal return statement of the source at each site:
DECODE_ABORT_EARLY at both the row-count and the sync-search rejection,
DECODE_ABORT_LENGTH at both the minimum-length and the length-ceiling
rejection, DECODE_FAIL_MIC at the CRC rejection, 1 on success. -/
def returnCode : DecodeStatus → ReturnCode
  | .multiRow => .abortEarly
  | .syncNotFound => .abortEarly
  | .tooShort => .abortLength
  | .frameTooLarge => .abortLength
  | .crcMismatch => .failMic
  | .success _ => .packets 1

/-- Lowercase hexadecimal digit. -/
def hexDigit (n : Nat) : Char :=
  if n < 10 then Char.ofNat (48 + n) else Char.ofNat (87 + n)

/-- Two lowercase hexadecimal characters of one byte, as sprintf %02x
renders a value below 256. -/
def byteHex (b : Nat) : String :=
  String.mk [hexDigit (b / 16 % 16), hexDigit (b % 16)]

/-- The hex string the source builds byte by byte with sprintf %02x. -/
def hexString (bs : List Nat) : String :=
  String.join (bs.map byteHex)

/-- The byte read as the declared length: 8 bits starting right after the
sync pattern match, start_pos + sizeof(preamble) * 8 in the source. -/
def lenByteAfterSync (row : List Bool) : Nat :=
  bitsToByte (extractBits row (bitbuffer_search row syncBits + preambleBytes.length * 8) 8)

/-- The len + 2 bytes the source extracts into frame[1..] starting at
start_pos + (sizeof(preamble) + 1) * 8: payload plus two received CRC
bytes. frame[1 + j] of the source is entry j of this list. -/
def extractedFrame (row : List Bool) : List Nat :=
  extractBytes row (bitbuffer_search row syncBits + (preambleBytes.length + 1) * 8)
    (lenByteAfterSync row + 2)

/-- Entry i of the extracted frame list, frame[1 + i] in the source;
an index past the end reads 0, like the zero-initialized buffer. -/
def extByte (row : List Bool) (i : Nat) : Nat :=
  (extractedFrame row).getD i 0

/-- The decode function watts_vision_decode of the source, one row list per
bitbuffer. Note on the CRC byte count: the source computes len - 1 with
len a uint8_t promoted to int (see crcArgByteCount below); this model uses
truncated Nat subtraction, which agrees with the source for len at least 1;
at len = 0 the source call is an out-of-bounds read, settled separately. -/
def watts_vision_decode (bitbuffer : List (List Bool)) : DecodeStatus :=
  if bitbuffer.length ≠ 1 then .multiRow
  else
    let row := bitbuffer.headD []
    let start_pos := bitbuffer_search row syncBits
    if start_pos = row.length then .syncNotFound
    else if row.length < 14 * 8 then .tooShort
    else
      let len := lenByteAfterSync row
      if 50 < len then .frameTooLarge
      else if 256 * extByte row len + extByte row (len + 1)
          ≠ crc16 ((extractedFrame row).take (len - 1)) 0x8005 0xffff then .crcMismatch
      else .success ⟨"WattsVision", hexString ((extractedFrame row).take len), "CRC"⟩

/-- Decidable test that the 48-bit sync pattern occurs nowhere in a row. -/
def containsSync (row : List Bool) : Bool :=
  (List.range (row.length + 1)).any (fun i => syncBits.isPrefixOf (row.drop i))

/-! Memory-access model of the fixed working buffer, taken from the source
lines declaring uint8_t frame[50] and the accesses that follow. -/

/-- Capacity in bytes of the local working buffer uint8_t frame[50];
valid indices are 0 to 49. -/
def frameCapacity : Nat := 50

/-- The guard if (len > 50) that rejects a declared length as too large. -/
def lengthGuardRejects (len : Nat) : Bool := 50 < len

/-- The frame byte indices written by the extraction call, which places
(len + 2) * 8 bits at &frame[1]: indices 1 through len + 2. -/
def frameWriteIndices (len : Nat) : List Nat :=
  (List.range (len + 2)).map (· + 1)

/-- The frame byte indices read by the received-CRC comparison:
frame[len + 1] and frame[len + 2]. -/
def crcCompareReadIndices (len : Nat) : List Nat := [len + 1, len + 2]

/-- The byte-count argument of the crc16 call in the source, written
len - 1 with len a uint8_t: the subtraction happens after integer
promotion to int and the result is converted to the unsigned parameter
type, so the value is (len - 1) mod 2 ^ 32 in two-complement style. -/
def crcArgByteCount (len : Nat) : Nat := (2 ^ 32 + len - 1) % 2 ^ 32

/-! Concrete inputs used by witnesses and counterexamples. -/

/-- The round-trip scenario input read literally: sync pattern, length
byte 3, payload 01 02 03, and crc16 of the first two payload bytes
(0x8601) big-endian. 12 bytes, 96 bits. -/
def rowRoundTrip96 : List Bool :=
  bytesToBits [0xaa, 0xaa, 0xd3, 0x91, 0xd3, 0x91, 0x03, 0x01, 0x02, 0x03, 0x86, 0x01]

/-- The round-trip frame as transmitted on air, with the two further
preamble bytes 0xaa 0xaa in front: 14 bytes, 112 bits. -/
def rowRoundTrip112 : List Bool :=
  bytesToBits [0xaa, 0xaa, 0xaa, 0xaa, 0xd3, 0x91, 0xd3, 0x91,
    0x03, 0x01, 0x02, 0x03, 0x86, 0x01]

/-- The round-trip frame with its received CRC bytes replaced by 00 00,
so that the received value differs from the computed CRC 0x8601. -/
def rowBadCrc112 : List Bool :=
  bytesToBits [0xaa, 0xaa, 0xaa, 0xaa, 0xd3, 0x91, 0xd3, 0x91,
    0x03, 0x01, 0x02, 0x03, 0x00, 0x00]

/-- A 112-bit row whose declared length byte is 0xff = 255 > 50. -/
def rowBigLen112 : List Bool :=
  bytesToBits [0xaa, 0xaa, 0xaa, 0xaa, 0xd3, 0x91, 0xd3, 0x91,
    0xff, 0x00, 0x00, 0x00, 0x00, 0x00]

/-- A 112-bit row with declared length 1, payload byte 0xab, received
CRC bytes 0xff 0xff. -/
def rowLenOne112 : List Bool :=
  bytesToBits [0xaa, 0xaa, 0xaa, 0xaa, 0xd3, 0x91, 0xd3, 0x91,
    0x01, 0xab, 0xff, 0xff, 0x00, 0x00]

/-- 111 zero bits: shorter than the minimum frame and without any sync
pattern occurrence. -/
def rowZeros111 : List Bool := List.replicate 111 false

/-- 8 zero bits: no sync pattern occurrence. -/
def rowZeros8 : List Bool := List.replicate 8 false

/-- A two-row bitbuffer. -/
def bbTwoRows : List (List Bool) := [[false], [false]]

/-- A distinct two-row bitbuffer. -/
def bbTwoRowsB : List (List Bool) := [[true], [true]]

/-- 10 zero bits: no sync pattern occurrence. -/
def rowZeros10 : List Bool := List.replicate 10 false

/-- A 56-bit row starting with the sync pattern: too short for a frame. -/
def rowShortSync56 : List Bool :=
  bytesToBits [0xaa, 0xaa, 0xd3, 0x91, 0xd3, 0x91, 0x00]

/-- A 112-bit row whose declared length byte is 0x33 = 51 > 50. -/
def rowBigLen112B : List Bool :=
  bytesToBits [0xaa, 0xaa, 0xaa, 0xaa, 0xd3, 0x91, 0xd3, 0x91,
    0x33, 0x00, 0x00, 0x00, 0x00, 0x00]

/-! Helper lemmas. -/

theorem crc16_nil (poly init : Nat) : crc16 [] poly init = init := rfl

theorem search_eq_length_of_no_sync (row : List Bool) (h : containsSync row = false) :
    bitbuffer_search row syncBits = row.length := by
  unfold containsSync at h
  have hn : (List.range (row.length + 1)).find?
      (fun i => syncBits.isPrefixOf (row.drop i)) = none :=
    List.find?_eq_none.mpr (fun x hx => by simpa using List.any_eq_false.mp h x hx)
  simp [bitbuffer_search, hn]

theorem bitsToByte_foldl_lt (bs : List Bool) (a : Nat) :
    bs.foldl (fun a b => 2 * a + b.toNat) a < (a + 1) * 2 ^ bs.length := by
  induction bs generalizing a with
  | nil => simp
  | cons b t ih =>
    simp only [List.foldl_cons, List.length_cons]
    have h1 := ih (2 * a + b.toNat)
    have h2 : (2 * a + b.toNat + 1) * 2 ^ t.length ≤ (a + 1) * 2 ^ (t.length + 1) := by
      rw [pow_succ]
      calc (2 * a + b.toNat + 1) * 2 ^ t.length
          ≤ (2 * (a + 1)) * 2 ^ t.length :=
            Nat.mul_le_mul_right _ (by cases b <;> simp <;> omega)
        _ = (a + 1) * (2 ^ t.length * 2) := by ring
    exact lt_of_lt_of_le h1 h2

theorem bitsToByte_lt (bs : List Bool) : bitsToByte bs < 2 ^ bs.length := by
  simpa [bitsToByte] using bitsToByte_foldl_lt bs 0

theorem mem_extractBytes_lt (row : List Bool) (pos n : Nat) :
    ∀ x ∈ extractBytes row pos n, x < 256 := by
  intro x hx
  unfold extractBytes at hx
  obtain ⟨k, _, rfl⟩ := List.mem_map.mp hx
  have h := bitsToByte_lt (extractBits row (pos + 8 * k) 8)
  have hlen : (extractBits row (pos + 8 * k) 8).length = 8 := by
    simp [extractBits]
  rw [hlen] at h
  simpa using h

theorem getD_lt_256 {l : List Nat} (h : ∀ x ∈ l, x < 256) (i : Nat) :
    l.getD i 0 < 256 := by
  induction l generalizing i with
  | nil => simp [List.getD]
  | cons a t ih =>
    cases i with
    | zero => simpa using h a (List.mem_cons_self a t)
    | succ j =>
      simp only [List.getD_cons_succ]
      exact ih (fun x hx => h x (List.mem_cons_of_mem a hx)) j

theorem extByte_lt (row : List Bool) (i : Nat) : extByte row i < 256 := by
  unfold extByte extractedFrame
  exact getD_lt_256 (mem_extractBytes_lt row _ _) i

/-! Claim theorems. -/

/-- C1 counterexample: the round-trip scenario input read literally is
sync pattern, length byte 3, payload 01 02 03 and the two CRC bytes:
12 bytes = 96 bits, below the 14 byte minimum the decoder enforces, so
the decoder rejects it at the minimum-length check and emits nothing. -/
theorem roundtrip_literal_input_rejected :
    watts_vision_decode [rowRoundTrip96] = DecodeStatus.tooShort ∧
    returnCode (watts_vision_decode [rowRoundTrip96]) = ReturnCode.abortLength := by decide

/-- C1 amended: with the row padded to the 112-bit minimum by the two
further on-air preamble bytes 0xaa 0xaa in front, the decoder succeeds
and emits exactly the record model WattsVision, raw 010203 (lowercase
hex of the payload), mic CRC. -/
theorem roundtrip_full_preamble_succeeds :
    watts_vision_decode [rowRoundTrip112] =
      DecodeStatus.success ⟨"WattsVision", "010203", "CRC"⟩ := by decide

/-- C2: false on the code. The guard len > 50 admits the declared
lengths 48, 49 and 50, yet extraction then writes frame bytes 1 through
len + 2 and the CRC comparison reads frame[len + 1] and frame[len + 2],
so indices 50, 51 and 52 of the 50-byte buffer frame[50] are accessed:
an out-of-bounds write and read. Lengths up to 47 stay in bounds. -/
theorem frame_buffer_overrun :
    lengthGuardRejects 48 = false ∧
    lengthGuardRejects 50 = false ∧
    frameCapacity ∈ frameWriteIndices 48 ∧
    52 ∈ frameWriteIndices 50 ∧
    crcCompareReadIndices 50 = [51, 52] ∧
    frameCapacity ≤ 51 ∧
    (∀ i ∈ frameWriteIndices 47, i < frameCapacity) ∧
    (∀ i ∈ crcCompareReadIndices 47, i < frameCapacity) := by decide

/-- C3: whenever a single-row input reaches the CRC step with declared
length between 1 and 50, the decoder compares the big-endian value of
the two trailing extracted bytes against the CRC-16 (poly 0x8005, init
0xffff) of exactly the first length - 1 payload bytes, and on mismatch
returns the CRC rejection without emitting a record. -/
theorem crc_mismatch_rejected (row : List Bool)
    (hsync : bitbuffer_search row syncBits ≠ row.length)
    (hbits : 14 * 8 ≤ row.length)
    (_hlo : 1 ≤ lenByteAfterSync row)
    (hhi : lenByteAfterSync row ≤ 50)
    (hmis : 256 * extByte row (lenByteAfterSync row)
        + extByte row (lenByteAfterSync row + 1)
        ≠ crc16 ((extractedFrame row).take (lenByteAfterSync row - 1)) 0x8005 0xffff) :
    watts_vision_decode [row] = DecodeStatus.crcMismatch := by
  have h1 : ¬ row.length < 14 * 8 := Nat.not_lt.mpr hbits
  have h2 : ¬ 50 < lenByteAfterSync row := Nat.not_lt.mpr hhi
  unfold watts_vision_decode
  simp [hsync, h1, h2, hmis]

/-- C3 witness: the round-trip frame with its received CRC bytes zeroed
is rejected at the CRC comparison. -/
theorem crc_mismatch_rejected_witness :
    watts_vision_decode [rowBadCrc112] = DecodeStatus.crcMismatch :=
  crc_mismatch_rejected rowBadCrc112 (by decide) (by decide) (by decide)
    (by decide) (by decide)

/-- C4 counterexample: a 111-bit row without the sync pattern is
rejected as sync-not-found (DECODE_ABORT_EARLY), not as too short
(DECODE_ABORT_LENGTH): the sync search runs before the minimum-length
check, so the claimed check order is wrong even in the value returned
to the caller. -/
theorem short_syncless_row_not_tooShort :
    watts_vision_decode [rowZeros111] = DecodeStatus.syncNotFound ∧
    DecodeStatus.syncNotFound ≠ DecodeStatus.tooShort ∧
    returnCode DecodeStatus.syncNotFound ≠ returnCode DecodeStatus.tooShort := by decide

/-- C4 amended: for a single row shorter than 112 bits the decoder
rejects and emits nothing, but the sync search is attempted first: the
rejection is too-short exactly when the sync pattern is found, and
sync-not-found otherwise. -/
theorem short_row_classification (row : List Bool) (h : row.length < 14 * 8) :
    watts_vision_decode [row] =
      (if bitbuffer_search row syncBits = row.length
       then DecodeStatus.syncNotFound else DecodeStatus.tooShort) := by
  unfold watts_vision_decode
  by_cases hs : bitbuffer_search row syncBits = row.length
  · simp [hs]
  · simp [hs, h]

/-- C4 amended witness: the 111-bit all-zero row, on which the
classification evaluates to sync-not-found. -/
theorem short_row_classification_witness :
    watts_vision_decode [rowZeros111] =
      (if bitbuffer_search rowZeros111 syncBits = rowZeros111.length
       then DecodeStatus.syncNotFound else DecodeStatus.tooShort) :=
  short_row_classification rowZeros111 (by decide)

/-- C5: a single row in which the sync pattern is found, that is long
enough for the length byte to be read, and whose declared length byte
exceeds 50, is rejected at the length ceiling regardless of the bytes
that follow, and no record is emitted. -/
theorem oversize_length_rejected (row : List Bool)
    (hsync : bitbuffer_search row syncBits ≠ row.length)
    (hbits : 14 * 8 ≤ row.length)
    (hbig : 50 < lenByteAfterSync row) :
    watts_vision_decode [row] = DecodeStatus.frameTooLarge := by
  have h1 : ¬ row.length < 14 * 8 := Nat.not_lt.mpr hbits
  unfold watts_vision_decode
  simp [hsync, h1, hbig]

/-- C5 witness: a 112-bit row with declared length 255. -/
theorem oversize_length_rejected_witness :
    watts_vision_decode [rowBigLen112] = DecodeStatus.frameTooLarge :=
  oversize_length_rejected rowBigLen112 (by decide) (by decide) (by decide)

/-- C6: a single-row input in which the 48-bit sync pattern occurs
nowhere is rejected as sync-not-found, and no record is emitted. -/
theorem no_sync_rejected (row : List Bool) (h : containsSync row = false) :
    watts_vision_decode [row] = DecodeStatus.syncNotFound := by
  have hs := search_eq_length_of_no_sync row h
  unfold watts_vision_decode
  simp [hs]

/-- C6 witness: the 8-bit all-zero row holds no sync occurrence. -/
theorem no_sync_rejected_witness :
    watts_vision_decode [rowZeros8] = DecodeStatus.syncNotFound :=
  no_sync_rejected rowZeros8 (by decide)

/-- C7: an input whose row count is not 1 (zero rows, two rows, any
content) is rejected at the first check with the early-abort result;
the result does not depend on any row content. -/
theorem multi_row_rejected (bitbuffer : List (List Bool))
    (h : bitbuffer.length ≠ 1) :
    watts_vision_decode bitbuffer = DecodeStatus.multiRow := by
  unfold watts_vision_decode
  rw [if_pos h]

/-- C7 witness: a two-row input. -/
theorem multi_row_rejected_witness :
    watts_vision_decode bbTwoRows = DecodeStatus.multiRow :=
  multi_row_rejected bbTwoRows (by decide)

/-- C8: right on the spec, wrong in the code. A declared length byte of
0 passes the length guard, but the byte count the source hands to crc16
is len - 1 computed in promoted int arithmetic and converted to the
unsigned parameter: for len = 0 that is 4294967295, far beyond the 50
byte working buffer, an out-of-bounds read instead of the claimed clean
CRC-coverage rejection. For len at least 1 the count is len - 1 as the
spec states. -/
theorem len_zero_crc_count_underflow :
    lengthGuardRejects 0 = false ∧
    crcArgByteCount 0 = 4294967295 ∧
    frameCapacity < crcArgByteCount 0 ∧
    crcArgByteCount 1 = 0 ∧
    crcArgByteCount 3 = 2 := by decide

/-- C9: the two early-abort rejections (row count, sync search) return
the same code, and the two length rejections (minimum length, length
ceiling) return the same code, so the caller cannot distinguish within
either pair; the two pairs do return different codes. Shown on four
concrete inputs reaching the four rejection sites. -/
theorem rejection_codes_coarse :
    watts_vision_decode bbTwoRowsB = DecodeStatus.multiRow ∧
    watts_vision_decode [rowZeros10] = DecodeStatus.syncNotFound ∧
    watts_vision_decode [rowShortSync56] = DecodeStatus.tooShort ∧
    watts_vision_decode [rowBigLen112B] = DecodeStatus.frameTooLarge ∧
    returnCode DecodeStatus.multiRow = returnCode DecodeStatus.syncNotFound ∧
    returnCode DecodeStatus.tooShort = returnCode DecodeStatus.frameTooLarge ∧
    returnCode DecodeStatus.multiRow ≠ returnCode DecodeStatus.tooShort ∧
    returnCode DecodeStatus.syncNotFound ≠ returnCode DecodeStatus.frameTooLarge := by decide

/-- C10: a single row reaching the CRC step with declared length 1 has
its CRC computed over zero bytes, which leaves the initial value
0xffff, so the frame is accepted exactly when the two trailing
extracted bytes are 0xff 0xff; the success condition does not involve
the payload byte (entry 0 of the extracted frame) at all. -/
theorem len_one_accept_iff (row : List Bool)
    (hsync : bitbuffer_search row syncBits ≠ row.length)
    (hbits : 14 * 8 ≤ row.length)
    (hone : lenByteAfterSync row = 1) :
    (∃ rec, watts_vision_decode [row] = DecodeStatus.success rec) ↔
      (extByte row 1 = 0xff ∧ extByte row 2 = 0xff) := by
  have h1 : ¬ row.length < 14 * 8 := Nat.not_lt.mpr hbits
  have h2 : ¬ 50 < lenByteAfterSync row := by rw [hone]; decide
  have b1 := extByte_lt row 1
  have b2 := extByte_lt row 2
  have key : watts_vision_decode [row] =
      if 256 * extByte row 1 + extByte row 2 ≠ 65535 then DecodeStatus.crcMismatch
      else DecodeStatus.success
        ⟨"WattsVision", hexString ((extractedFrame row).take 1), "CRC"⟩ := by
    unfold watts_vision_decode
    simp [hsync, h1, h2, hone, crc16_nil]
  rw [key]
  by_cases hc : 256 * extByte row 1 + extByte row 2 = 65535
  · rw [if_neg (not_not_intro hc)]
    constructor
    · intro _
      omega
    · intro _
      exact ⟨_, rfl⟩
  · rw [if_pos hc]
    constructor
    · rintro ⟨rec, hr⟩
      simp at hr
    · rintro ⟨hf1, hf2⟩
      exact (hc (by omega)).elim

/-- C10 witness: a 112-bit row with length byte 1, payload byte 0xab and
trailing bytes 0xff 0xff is accepted. -/
theorem len_one_accept_iff_witness :
    ∃ rec, watts_vision_decode [rowLenOne112] = DecodeStatus.success rec :=
  (len_one_accept_iff rowLenOne112 (by decide) (by decide) (by decide)).mpr
    (by decide)

end WattsVision
